import Mathlib

/-!
Verification development for the db-manager repository.

The definitions below are a shallow embedding of the permission model
(src/core/permission_checker.py), the save-permissions handler
(src/ui/main_window.py), and the backup inventory / executor / delete
handlers (src/ui/pages/backups_page.py, src/ui/pages/databases.py).
Database state is modelled as an explicit list of grant rows, the backup
directory as an explicit list of files, and each fallible external
interaction (SQL query, subprocess run) as an explicit outcome parameter.
-/

namespace DBManager

/-- A row of the `user_permissions` relation
(schema: username, database_name, permission_type, granted_by). -/
structure Grant where
  username : String
  database_name : String
  permission_type : String
  granted_by : String
deriving DecidableEq

/-- Lowercasing of a string, character by character: str.lower(). -/
def strToLower (s : String) : String :=
  String.mk (s.data.map Char.toLower)

/-- Role normalisation from PermissionChecker.__init__:
`self.role = role.lower() if role else 'user'` (None and the empty string
are falsy in Python, so both collapse to "user"). -/
def normRole (role : Option String) : String :=
  match role with
  | none => "user"
  | some r => if r = "" then "user" else strToLower r

/-- State of a PermissionChecker instance: username, normalised role and
the is_admin flag computed in __init__. There is no cache field, matching
the source, which stores no query results. -/
structure PermissionChecker where
  username : String
  role : String
  is_admin : Bool
deriving DecidableEq

/-- PermissionChecker.__init__: normalises the role and computes
`self.is_admin = self.role in ['admin', 'superadmin']`. -/
def PermissionChecker.init (username : String) (role : Option String) : PermissionChecker :=
  { username := username
    role := normRole role
    is_admin := normRole role == "admin" || normRole role == "superadmin" }

/-- Outcome of the COUNT(*) query in _check_permission: either there is no
connection object, or the query raised, or it returned over the current
contents of the user_permissions relation. -/
inductive QueryOutcome where
  | noConnection : QueryOutcome
  | queryError : String → QueryOutcome
  | rows : List Grant → QueryOutcome
deriving DecidableEq

/-- The WHERE clause of the count query in _check_permission:
username = %s AND database_name = %s AND permission_type = %s. -/
def grantMatches (g : Grant) (username database_name permission_type : String) : Bool :=
  g.username == username && g.database_name == database_name
    && g.permission_type == permission_type

/-- SELECT COUNT(*) FROM user_permissions WHERE ... over an explicit list
of rows. -/
def countMatching (grants : List Grant) (username database_name permission_type : String) :
    Nat :=
  (grants.filter (fun g => grantMatches g username database_name permission_type)).length

/-- PermissionChecker._check_permission: admins bypass; otherwise a missing
connection or a raised exception yields False, and a successful query
yields `result[0] > 0`. -/
def PermissionChecker.check_permission (c : PermissionChecker) (outcome : QueryOutcome)
    (database_name permission_type : String) : Bool :=
  if c.is_admin then true
  else
    match outcome with
    | .noConnection => false
    | .queryError _ => false
    | .rows grants =>
        decide (0 < countMatching grants c.username database_name permission_type)

/-- PermissionChecker.can_create_database: admin-only, never queries grants
(its only input is the checker itself). -/
def PermissionChecker.can_create_database (c : PermissionChecker) : Bool :=
  c.is_admin

/-- PermissionChecker.can_drop_database: _check_permission with 'DELETE'. -/
def PermissionChecker.can_drop_database (c : PermissionChecker) (o : QueryOutcome)
    (database_name : String) : Bool :=
  c.check_permission o database_name "DELETE"

/-- PermissionChecker.can_create_table: _check_permission with 'CREATE'. -/
def PermissionChecker.can_create_table (c : PermissionChecker) (o : QueryOutcome)
    (database_name : String) : Bool :=
  c.check_permission o database_name "CREATE"

/-- PermissionChecker.can_drop_table: _check_permission with 'DELETE'. -/
def PermissionChecker.can_drop_table (c : PermissionChecker) (o : QueryOutcome)
    (database_name : String) : Bool :=
  c.check_permission o database_name "DELETE"

/-- PermissionChecker.can_insert: _check_permission with 'INSERT'. -/
def PermissionChecker.can_insert (c : PermissionChecker) (o : QueryOutcome)
    (database_name : String) : Bool :=
  c.check_permission o database_name "INSERT"

/-- PermissionChecker.can_update: _check_permission with 'UPDATE'. -/
def PermissionChecker.can_update (c : PermissionChecker) (o : QueryOutcome)
    (database_name : String) : Bool :=
  c.check_permission o database_name "UPDATE"

/-- PermissionChecker.can_delete: _check_permission with 'DELETE'. -/
def PermissionChecker.can_delete (c : PermissionChecker) (o : QueryOutcome)
    (database_name : String) : Bool :=
  c.check_permission o database_name "DELETE"

/-- PermissionChecker.can_backup: unconditionally true for every user. -/
def PermissionChecker.can_backup (c : PermissionChecker) (database_name : String) : Bool :=
  true

/-- PermissionChecker.can_restore: _check_permission with 'CREATE'. -/
def PermissionChecker.can_restore (c : PermissionChecker) (o : QueryOutcome)
    (database_name : String) : Bool :=
  c.check_permission o database_name "CREATE"

/-- Existence of a matching grant row in the relation. -/
def hasGrant (grants : List Grant) (username database_name permission_type : String) : Prop :=
  ∃ g ∈ grants, grantMatches g username database_name permission_type = true

instance (grants : List Grant) (u d p : String) : Decidable (hasGrant grants u d p) := by
  unfold hasGrant; infer_instance

/-- Deleting from the relation every row matching (username, database,
permission type): the state after an admin revokes that grant. -/
def removeMatching (grants : List Grant) (username database_name permission_type : String) :
    List Grant :=
  grants.filter (fun g => !(grantMatches g username database_name permission_type))

/-! Save-permissions handler (src/ui/main_window.py, _handle_save_permissions). -/

/-- Removal of every occurrence of the two-character pattern "• " from a
character list, scanning left to right: db_name.replace("• ", ""). -/
def stripBullets : List Char → List Char
  | [] => []
  | [c] => [c]
  | c1 :: c2 :: rest =>
      if c1 = '•' && c2 = ' ' then stripBullets rest
      else c1 :: stripBullets (c2 :: rest)

/-- Whitespace stripping at both ends of a character list: str.strip(). -/
def stripWs (l : List Char) : List Char :=
  ((l.dropWhile Char.isWhitespace).reverse.dropWhile Char.isWhitespace).reverse

/-- clean_db_name = db_name.replace("• ", "").strip(). -/
def cleanDbName (db_name : String) : String :=
  String.mk (stripWs (stripBullets db_name.data))

/-- The grant rows inserted by _handle_save_permissions: for each database
of permissions_data, in order, each checked (is_granted) permission type
becomes one row (username, clean_db_name, perm_type, granted_by). -/
def newGrantRows (username granted_by : String)
    (permissions_data : List (String × List (String × Bool))) : List Grant :=
  permissions_data.flatMap (fun dbp =>
    (dbp.2.filter (fun pp => pp.2)).map (fun pp =>
      { username := username
        database_name := cleanDbName dbp.1
        permission_type := pp.1
        granted_by := granted_by }))

/-- Net effect of _handle_save_permissions on the user_permissions relation
when every statement succeeds: DELETE FROM user_permissions WHERE
username = %s, then the INSERTs of the checked entries. -/
def handle_save_permissions (table : List Grant) (username granted_by : String)
    (permissions_data : List (String × List (String × Bool))) : List Grant :=
  (table.filter (fun g => g.username != username))
    ++ newGrantRows username granted_by permissions_data

/-! Transactional execution model for the save-permissions handler
(autocommit is off for the mysql connection: cursor.execute statements
mutate only the pending view; connection.commit() publishes it and
connection.rollback() discards it). -/

/-- One SQL statement issued by the handler. -/
inductive Stmt where
  | del : String → Stmt
  | ins : Grant → Stmt
deriving DecidableEq

/-- A connection: the committed contents of user_permissions, visible to
other readers, and the pending in-transaction view. -/
structure Connection where
  committed : List Grant
  pending : List Grant
deriving DecidableEq

/-- cursor.execute of one statement mutates the pending view only. -/
def execStmt (c : Connection) : Stmt → Connection
  | .del username => { c with pending := c.pending.filter (fun g => g.username != username) }
  | .ins g => { c with pending := c.pending ++ [g] }

/-- Sequential execution of statements. -/
def execStmts (c : Connection) (stmts : List Stmt) : Connection :=
  stmts.foldl execStmt c

/-- connection.commit(): publishes the pending view. -/
def commit (c : Connection) : Connection :=
  { c with committed := c.pending }

/-- connection.rollback(): discards the pending view. -/
def rollback (c : Connection) : Connection :=
  { c with pending := c.committed }

/-- The statement sequence of _handle_save_permissions: the delete of the
user's rows followed by the inserts of the checked entries. -/
def saveStmts (username granted_by : String)
    (permissions_data : List (String × List (String × Bool))) : List Stmt :=
  Stmt.del username :: (newGrantRows username granted_by permissions_data).map Stmt.ins

/-- Run of _handle_save_permissions on a connection. failAfter = none is
the success path (all statements then commit); failAfter = some k is an
exception after k statements succeeded, which lands in the except branch
and calls connection.rollback(). -/
def runSave (c : Connection) (username granted_by : String)
    (permissions_data : List (String × List (String × Bool))) (failAfter : Option Nat) :
    Connection :=
  match failAfter with
  | none => commit (execStmts c (saveStmts username granted_by permissions_data))
  | some k => rollback (execStmts c ((saveStmts username granted_by permissions_data).take k))

/-! Backup filenames and source-database parsing
(src/ui/pages/databases.py _handle_backup and _handle_restore,
src/ui/pages/backups_page.py load_real_backups). -/

/-- backup_filename = f"{db_name}_backup_{timestamp}.sql". -/
def backupFilename (db_name timestamp : String) : String :=
  db_name ++ "_backup_" ++ timestamp ++ ".sql"

/-- The characters before the first underscore: s.split('_')[0] (the whole
string when no underscore is present, as in Python). -/
def takeBeforeUnderscore : List Char → List Char
  | [] => []
  | c :: rest => if c = '_' then [] else c :: takeBeforeUnderscore rest

/-- Source database shown by the backup inventory:
file_name.split('_')[0] if '_' in file_name else "Unknown". -/
def inventorySourceDb (file_name : String) : String :=
  if '_' ∈ file_name.data then String.mk (takeBeforeUnderscore file_name.data)
  else "Unknown"

/-- Restore target derivation: restore_db_name = backup_name.split('_')[0]. -/
def restoreTargetDb (backup_name : String) : String :=
  String.mk (takeBeforeUnderscore backup_name.data)

/-! Backup inventory listing (BackupsPage.load_real_backups). -/

/-- A directory entry: name, filesystem mtime and size in bytes. -/
structure FileEntry where
  name : String
  mtime : Nat
  size : Nat
deriving DecidableEq

/-- A row of the backups table as the claims observe it. -/
structure BackupDescriptor where
  file_name : String
  source_db : String
  size_str : String
deriving DecidableEq

/-- file.endswith('.sql') or file.endswith('.sql.gz'). -/
def isBackupFile (name : String) : Bool :=
  List.isSuffixOf ".sql".data name.data || List.isSuffixOf ".sql.gz".data name.data

/-- Stable insertion into a list sorted by mtime descending: an element is
placed after every element whose mtime is greater or equal, which preserves
input order among equal keys. -/
def insertDesc (x : FileEntry) : List FileEntry → List FileEntry
  | [] => [x]
  | y :: ys => if x.mtime ≤ y.mtime then y :: insertDesc x ys else x :: y :: ys

/-- backup_files.sort(key=mtime, reverse=True): a stable sort, newest
first. -/
def sortByMtimeDesc (l : List FileEntry) : List FileEntry :=
  l.foldl (fun acc x => insertDesc x acc) []

/-- Round num/den to the nearest integer, ties to even. For sizes below
2^53 the Python float divisions size/1024 and size/(1024*1024) are exact
(power-of-two divisors), and %.2f formatting rounds the exact value half
to even, so the printed hundredths are exactly this rounding. -/
def roundHalfEven (num den : Nat) : Nat :=
  let q := num / den
  let r := num % den
  if 2 * r < den then q
  else if den < 2 * r then q + 1
  else if q % 2 = 0 then q else q + 1

/-- Two-digit zero-padded rendering of a value below 100. -/
def pad2 (k : Nat) : String :=
  if k < 10 then "0" ++ toString k else toString k

/-- Rendering of a hundredths count as a two-decimal number: %.2f. -/
def twoDec (h : Nat) : String :=
  toString (h / 100) ++ "." ++ pad2 (h % 100)

/-- Size formatting of load_real_backups: >= 1024*1024 bytes as MB with two
decimals, >= 1024 as KB with two decimals, otherwise the integer byte count
with " B". The hundredths of size/1024 are size*25/256 rounded half to
even, and of size/(1024*1024) are size*25/262144. -/
def formatSize (size_bytes : Nat) : String :=
  if 1024 * 1024 ≤ size_bytes then twoDec (roundHalfEven (size_bytes * 25) 262144) ++ " MB"
  else if 1024 ≤ size_bytes then twoDec (roundHalfEven (size_bytes * 25) 256) ++ " KB"
  else toString size_bytes ++ " B"

/-- load_real_backups over a directory listing: keep the .sql / .sql.gz
files, sort by mtime newest-first, and render each as (filename, inferred
source database, formatted size). -/
def listBackups (dir : List FileEntry) : List BackupDescriptor :=
  (sortByMtimeDesc (dir.filter (fun f => isBackupFile f.name))).map (fun f =>
    { file_name := f.name
      source_db := inventorySourceDb f.name
      size_str := formatSize f.size })

/-! Backup executor (DatabasesPage._handle_backup). -/

/-- Result of the subprocess.run of mysqldump: exit code and captured
standard error. -/
structure ProcResult where
  returncode : Int
  stderr : String
deriving DecidableEq

/-- What _handle_backup reports to the user. -/
inductive BackupReport where
  | mysqldumpNotFound : BackupReport
  | success : String → BackupReport
  | failed : String → BackupReport
deriving DecidableEq

/-- DatabasesPage._handle_backup: if mysqldump is missing the handler
returns before touching the directory; otherwise open(backup_path, 'w')
creates the output file, the dump runs, and a zero exit code is reported
as success while a nonzero one is reported as failure carrying
result.stderr. No branch removes the created file. -/
def handle_backup (files : List String) (mysqldumpExists : Bool) (db_name timestamp : String)
    (result : ProcResult) : BackupReport × List String :=
  if !mysqldumpExists then (.mysqldumpNotFound, files)
  else
    let backup_filename := backupFilename db_name timestamp
    let files1 := files ++ [backup_filename]
    if result.returncode = 0 then (.success backup_filename, files1)
    else (.failed result.stderr, files1)

/-! Backup deletion handlers (BackupsPage._handle_delete and
DatabasesPage._handle_delete_backup), modelled after the user confirms the
dialog. -/

/-- What a delete handler shows after the confirmation: a success dialog, a
file-not-found warning, or nothing at all. -/
inductive DeleteReport where
  | deleted : String → DeleteReport
  | fileNotFoundWarning : String → DeleteReport
  | silent : DeleteReport
deriving DecidableEq

/-- BackupsPage._handle_delete: removes and reports when the file exists;
when it does not, the if-branch is skipped and the handler ends with no
dialog and no deletion. -/
def backupsPage_handle_delete (files : List String) (backup_name : String) :
    DeleteReport × List String :=
  if backup_name ∈ files then (.deleted backup_name, files.erase backup_name)
  else (.silent, files)

/-- DatabasesPage._handle_delete_backup: removes and reports when the file
exists; otherwise shows the "File Not Found" warning. -/
def databasesPage_handle_delete_backup (files : List String) (backup_name : String) :
    DeleteReport × List String :=
  if backup_name ∈ files then (.deleted backup_name, files.erase backup_name)
  else (.fileNotFoundWarning backup_name, files)

/-! Statement-level helpers used by the claims. -/

/-- All nine permission checks answer true, whatever the query outcome. -/
def allChecksTrue (c : PermissionChecker) : Prop :=
  ∀ o db, c.can_drop_database o db = true ∧ c.can_drop_table o db = true
    ∧ c.can_create_table o db = true ∧ c.can_insert o db = true
    ∧ c.can_update o db = true ∧ c.can_delete o db = true
    ∧ c.can_restore o db = true ∧ c.can_backup db = true
    ∧ c.can_create_database = true

/-- The seven grant-backed checks all answer false on a given outcome. -/
def failsClosed (c : PermissionChecker) (o : QueryOutcome) : Prop :=
  ∀ db, c.can_drop_database o db = false ∧ c.can_drop_table o db = false
    ∧ c.can_create_table o db = false ∧ c.can_insert o db = false
    ∧ c.can_update o db = false ∧ c.can_delete o db = false
    ∧ c.can_restore o db = false

/-- The conclusion of claim C1: each check answers by existence of the
matching grant row under the documented action-to-permission mapping, and
a check made right after the matching rows are removed answers false. -/
def ChecksMatchGrants (c : PermissionChecker) (grants : List Grant) (db : String) : Prop :=
  (c.can_drop_database (.rows grants) db = true ↔ hasGrant grants c.username db "DELETE")
  ∧ (c.can_drop_table (.rows grants) db = true ↔ hasGrant grants c.username db "DELETE")
  ∧ (c.can_create_table (.rows grants) db = true ↔ hasGrant grants c.username db "CREATE")
  ∧ (c.can_insert (.rows grants) db = true ↔ hasGrant grants c.username db "INSERT")
  ∧ (c.can_update (.rows grants) db = true ↔ hasGrant grants c.username db "UPDATE")
  ∧ (c.can_delete (.rows grants) db = true ↔ hasGrant grants c.username db "DELETE")
  ∧ (c.can_restore (.rows grants) db = true ↔ hasGrant grants c.username db "CREATE")
  ∧ (∀ p, c.check_permission (.rows (removeMatching grants c.username db p)) db p = false)

/-- Behaviour of the two delete handlers on a filename absent from saved
backups: the databases-page handler warns File Not Found, the backups-page
handler shows nothing; neither deletes anything or reports success. -/
def DeleteMissingSpec (files : List String) (name : String) : Prop :=
  (databasesPage_handle_delete_backup files name).1 = .fileNotFoundWarning name
  ∧ (databasesPage_handle_delete_backup files name).2 = files
  ∧ (backupsPage_handle_delete files name).1 = .silent
  ∧ (backupsPage_handle_delete files name).2 = files
  ∧ (∀ s, (backupsPage_handle_delete files name).1 ≠ .deleted s)
  ∧ (∀ s, (databasesPage_handle_delete_backup files name).1 ≠ .deleted s)

/-- The conclusion of claim C5: the two-file directory is listed newest
first with sizes "2.00 KB" and "100 B", a size below 1024 bytes is printed
as an integer with " B", and sizes in the KB and MB ranges (thresholds at
1024 and 1024*1024) are printed with exactly two decimal digits. -/
def ListBackupsSpec (n m q t1 t2 : Nat) : Prop :=
  listBackups [{ name := "a_backup_20240101_0000.sql", mtime := t1, size := 100 },
      { name := "a_backup_20240102_0000.sql", mtime := t2, size := 2048 }]
    = [{ file_name := "a_backup_20240102_0000.sql", source_db := "a", size_str := "2.00 KB" },
       { file_name := "a_backup_20240101_0000.sql", source_db := "a", size_str := "100 B" }]
  ∧ formatSize n = toString n ++ " B"
  ∧ (∃ a b : Nat, b < 100 ∧ formatSize m = toString a ++ "." ++ pad2 b ++ " KB")
  ∧ (∃ a b : Nat, b < 100 ∧ formatSize q = toString a ++ "." ++ pad2 b ++ " MB")

lemma countMatching_pos_iff (grants : List Grant) (u d p : String) :
    0 < countMatching grants u d p ↔ hasGrant grants u d p := by
  simp [countMatching, hasGrant, List.length_pos, List.filter_eq_nil_iff]

lemma countMatching_removeMatching (grants : List Grant) (u d p : String) :
    countMatching (removeMatching grants u d p) u d p = 0 := by
  simp [countMatching, removeMatching, List.filter_filter]

lemma check_permission_rows_iff (c : PermissionChecker) (grants : List Grant)
    (d p : String) (hna : c.is_admin = false) :
    c.check_permission (.rows grants) d p = true ↔ hasGrant grants c.username d p := by
  simp [PermissionChecker.check_permission, hna, countMatching_pos_iff]

/-- C1: for every non-admin user, each of the seven grant-backed permission
checks (can_drop_database, can_drop_table, can_create_table, can_insert,
can_update, can_delete, can_restore) answers true on a successful query iff
a grant row matching (username, database, mapped permission type) exists in
the user_permissions relation at call time (count > 0); the answer is a
function of the current rows only (no cache), so a check made right after
removing the matching rows answers false. -/
theorem C1_nonadmin_checks_track_grants (c : PermissionChecker) (grants : List Grant)
    (db : String) (hna : c.is_admin = false) :
    ChecksMatchGrants c grants db := by
  refine ⟨?_, ?_, ?_, ?_, ?_, ?_, ?_, ?_⟩
  · simpa [PermissionChecker.can_drop_database] using
      check_permission_rows_iff c grants db "DELETE" hna
  · simpa [PermissionChecker.can_drop_table] using
      check_permission_rows_iff c grants db "DELETE" hna
  · simpa [PermissionChecker.can_create_table] using
      check_permission_rows_iff c grants db "CREATE" hna
  · simpa [PermissionChecker.can_insert] using
      check_permission_rows_iff c grants db "INSERT" hna
  · simpa [PermissionChecker.can_update] using
      check_permission_rows_iff c grants db "UPDATE" hna
  · simpa [PermissionChecker.can_delete] using
      check_permission_rows_iff c grants db "DELETE" hna
  · simpa [PermissionChecker.can_restore] using
      check_permission_rows_iff c grants db "CREATE" hna
  · intro p
    simp [PermissionChecker.check_permission, hna, countMatching_removeMatching]

/-- Witness for C1 at a concrete non-admin checker and a one-row relation. -/
theorem C1_nonadmin_checks_track_grants_witness :
    (PermissionChecker.init "bob" (some "user")).is_admin = false
    ∧ ChecksMatchGrants (PermissionChecker.init "bob" (some "user"))
        [{ username := "bob", database_name := "db1", permission_type := "INSERT",
           granted_by := "root" }] "db1" :=
  ⟨by decide, C1_nonadmin_checks_track_grants _ _ _ (by decide)⟩

/-- C2: a user whose role string case-insensitively equals "admin" or
"superadmin" has is_admin set and every permission check answers true
whatever the query outcome; a None or empty role is normalised to "user"
with no admin bypass. -/
theorem C2_admin_bypass (username r : String)
    (h : strToLower r = "admin" ∨ strToLower r = "superadmin") :
    (PermissionChecker.init username (some r)).is_admin = true
    ∧ allChecksTrue (PermissionChecker.init username (some r))
    ∧ PermissionChecker.init username none
        = { username := username, role := "user", is_admin := false }
    ∧ PermissionChecker.init username (some "")
        = { username := username, role := "user", is_admin := false } := by
  have hr : r ≠ "" := by
    rintro rfl
    rcases h with h | h <;> revert h <;> decide
  have hnorm : normRole (some r) = strToLower r := by simp [normRole, hr]
  have hadmin : (PermissionChecker.init username (some r)).is_admin = true := by
    simp only [PermissionChecker.init, hnorm]
    rcases h with h | h <;> simp [h]
  refine ⟨hadmin, ?_, ?_, ?_⟩
  · intro o db
    simp [PermissionChecker.can_drop_database, PermissionChecker.can_drop_table,
      PermissionChecker.can_create_table, PermissionChecker.can_insert,
      PermissionChecker.can_update, PermissionChecker.can_delete,
      PermissionChecker.can_restore, PermissionChecker.can_backup,
      PermissionChecker.can_create_database, PermissionChecker.check_permission, hadmin]
  · simp [PermissionChecker.init, normRole]
  · simp [PermissionChecker.init, normRole]

/-- Witness for C2 at role "Admin" (mixed case). -/
theorem C2_admin_bypass_witness :
    (strToLower "Admin" = "admin" ∨ strToLower "Admin" = "superadmin")
    ∧ ((PermissionChecker.init "alice" (some "Admin")).is_admin = true
      ∧ allChecksTrue (PermissionChecker.init "alice" (some "Admin"))
      ∧ PermissionChecker.init "alice" none
          = { username := "alice", role := "user", is_admin := false }
      ∧ PermissionChecker.init "alice" (some "")
          = { username := "alice", role := "user", is_admin := false }) :=
  ⟨by decide, C2_admin_bypass "alice" "Admin" (by decide)⟩

lemma newGrantRows_username {username granted_by : String}
    {pd : List (String × List (String × Bool))} {g : Grant}
    (hg : g ∈ newGrantRows username granted_by pd) : g.username = username := by
  simp only [newGrantRows, List.mem_flatMap, List.mem_map, List.mem_filter] at hg
  obtain ⟨dbp, _, pp, _, rfl⟩ := hg
  rfl

lemma save_filter_eq (username granted_by : String)
    (pd : List (String × List (String × Bool))) (table : List Grant) :
    (handle_save_permissions table username granted_by pd).filter
      (fun g => g.username == username) = newGrantRows username granted_by pd := by
  rw [handle_save_permissions, List.filter_append]
  have h1 : (table.filter (fun g => g.username != username)).filter
      (fun g => g.username == username) = [] := by
    rw [List.filter_eq_nil_iff]
    intro g hg
    rcases List.mem_filter.mp hg with ⟨-, hne⟩
    simp only [bne_iff_ne, ne_eq] at hne
    simp [hne]
  have h2 : (newGrantRows username granted_by pd).filter
      (fun g => g.username == username) = newGrantRows username granted_by pd := by
    rw [List.filter_eq_self]
    intro g hg
    simp [newGrantRows_username hg]
  rw [h1, h2, List.nil_append]

/-- C3: saving permissions deletes every existing grant row of the user and
inserts exactly the checked entries: after the save, the user's rows are
exactly the new checked rows (fully replaced, never merged), other users'
rows are untouched, and the concrete save for "bob" with only
db1/INSERT checked leaves exactly the single row (bob, db1, INSERT). -/
theorem C3_save_replaces_grants (table : List Grant) (username granted_by : String)
    (pd : List (String × List (String × Bool))) :
    ((handle_save_permissions table username granted_by pd).filter
        (fun g => g.username == username) = newGrantRows username granted_by pd)
    ∧ ((handle_save_permissions table username granted_by pd).filter
        (fun g => g.username != username)
      = table.filter (fun g => g.username != username))
    ∧ (handle_save_permissions table "bob" "admin"
        [("db1", [("INSERT", true)])]).filter (fun g => g.username == "bob")
      = [{ username := "bob", database_name := "db1", permission_type := "INSERT",
           granted_by := "admin" }] := by
  refine ⟨save_filter_eq username granted_by pd table, ?_, ?_⟩
  · rw [handle_save_permissions, List.filter_append]
    have h1 : (table.filter (fun g => g.username != username)).filter
        (fun g => g.username != username) = table.filter (fun g => g.username != username) := by
      rw [List.filter_eq_self]
      intro g hg
      exact (List.mem_filter.mp hg).2
    have h2 : (newGrantRows username granted_by pd).filter
        (fun g => g.username != username) = [] := by
      rw [List.filter_eq_nil_iff]
      intro g hg
      simp [newGrantRows_username hg]
    rw [h1, h2, List.append_nil]
  · rw [save_filter_eq "bob" "admin" [("db1", [("INSERT", true)])] table]
    decide

lemma execStmt_committed (c : Connection) (s : Stmt) :
    (execStmt c s).committed = c.committed := by
  cases s <;> rfl

lemma execStmts_committed (stmts : List Stmt) (c : Connection) :
    (execStmts c stmts).committed = c.committed := by
  induction stmts generalizing c with
  | nil => rfl
  | cons s rest ih =>
      rw [show execStmts c (s :: rest) = execStmts (execStmt c s) rest from rfl, ih,
        execStmt_committed]

lemma execStmts_ins_pending (l : List Grant) (c : Connection) :
    (execStmts c (l.map Stmt.ins)).pending = c.pending ++ l := by
  induction l generalizing c with
  | nil => simp [execStmts]
  | cons g rest ih =>
      rw [List.map_cons,
        show execStmts c (Stmt.ins g :: rest.map Stmt.ins)
          = execStmts (execStmt c (.ins g)) (rest.map Stmt.ins) from rfl, ih]
      simp [execStmt]

/-- C9: the save-permissions transaction is atomic over the grant relation:
whenever an exception interrupts the statement sequence after any number k
of executed statements (including right after the delete), the rollback in
the except branch leaves the committed relation, and the connection's view
of it, exactly as before the save began; only the full success path
commits, and it commits exactly the delete-then-insert result. -/
theorem C9_save_permissions_atomic (committed : List Grant) (username granted_by : String)
    (pd : List (String × List (String × Bool))) (k : Nat) :
    ((runSave ⟨committed, committed⟩ username granted_by pd (some k)).committed = committed)
    ∧ ((runSave ⟨committed, committed⟩ username granted_by pd (some k)).pending = committed)
    ∧ ((runSave ⟨committed, committed⟩ username granted_by pd none).committed
        = handle_save_permissions committed username granted_by pd) := by
  refine ⟨?_, ?_, ?_⟩
  · simp [runSave, rollback, execStmts_committed]
  · simp [runSave, rollback, execStmts_committed]
  · rw [runSave, commit, saveStmts,
      show execStmts ⟨committed, committed⟩
          (Stmt.del username :: (newGrantRows username granted_by pd).map Stmt.ins)
        = execStmts (execStmt ⟨committed, committed⟩ (.del username))
            ((newGrantRows username granted_by pd).map Stmt.ins) from rfl,
      execStmts_ins_pending]
    rfl

/-- C8: for a non-admin user, a permission check with no connection object
or with a failing query returns false (fail closed); the embedding of
_check_permission is a total Bool-valued function, so no exception reaches
the caller. -/
theorem C8_fail_closed (c : PermissionChecker) (e : String) (hna : c.is_admin = false) :
    failsClosed c .noConnection ∧ failsClosed c (.queryError e)
    ∧ ∀ db p, c.check_permission .noConnection db p = false
        ∧ c.check_permission (.queryError e) db p = false := by
  refine ⟨fun db => ?_, fun db => ?_, fun db p => ?_⟩ <;>
    simp [PermissionChecker.can_drop_database, PermissionChecker.can_drop_table,
      PermissionChecker.can_create_table, PermissionChecker.can_insert,
      PermissionChecker.can_update, PermissionChecker.can_delete,
      PermissionChecker.can_restore, PermissionChecker.check_permission, hna]

/-- Witness for C8 at a concrete non-admin checker. -/
theorem C8_fail_closed_witness :
    (PermissionChecker.init "bob" (some "user")).is_admin = false
    ∧ (failsClosed (PermissionChecker.init "bob" (some "user")) .noConnection
      ∧ failsClosed (PermissionChecker.init "bob" (some "user"))
          (.queryError "connection lost")
      ∧ ∀ db p,
          (PermissionChecker.init "bob" (some "user")).check_permission
            .noConnection db p = false
          ∧ (PermissionChecker.init "bob" (some "user")).check_permission
              (.queryError "connection lost") db p = false) :=
  ⟨by decide, C8_fail_closed _ "connection lost" (by decide)⟩

lemma data_append (s t : String) : (s ++ t).data = s.data ++ t.data := by
  cases s; cases t; rfl

lemma mk_data (s : String) : String.mk s.data = s := by
  cases s; rfl

lemma takeBefore_append (l1 l2 : List Char) (h : '_' ∉ l1) :
    takeBeforeUnderscore (l1 ++ '_' :: l2) = l1 := by
  induction l1 with
  | nil => simp [takeBeforeUnderscore]
  | cons c rest ih =>
      have hc : ¬(c = '_') := by
        intro he
        exact h (by simp [he])
      have h2 : '_' ∉ rest := fun hm => h (List.mem_cons_of_mem _ hm)
      simp [takeBeforeUnderscore, hc, ih h2]

/-- C4: for a database name containing no underscore, parsing the substring
before the first underscore out of the produced backup filename recovers
the database name, and the inventory listing and the restore-target
derivation apply the same rule and agree. -/
theorem C4_filename_roundtrip (db t : String) (h : '_' ∉ db.data) :
    inventorySourceDb (backupFilename db t) = db
    ∧ restoreTargetDb (backupFilename db t) = db := by
  have hdata : (backupFilename db t).data
      = db.data ++ '_' :: (("backup_" : String).data ++ (t.data ++ (".sql" : String).data)) := by
    show (db ++ "_backup_" ++ t ++ ".sql").data = _
    rw [data_append, data_append, data_append,
      show ("_backup_" : String).data = '_' :: ("backup_" : String).data from by decide]
    simp [List.append_assoc]
  have hmem : '_' ∈ (backupFilename db t).data := by
    rw [hdata]
    exact List.mem_append.mpr (Or.inr (List.mem_cons_self _ _))
  have htake : takeBeforeUnderscore (backupFilename db t).data = db.data := by
    rw [hdata]
    exact takeBefore_append _ _ h
  constructor
  · rw [inventorySourceDb, if_pos hmem, htake, mk_data]
  · rw [restoreTargetDb, htake, mk_data]

/-- Witness for C4 at database "mydb" and a concrete timestamp. -/
theorem C4_filename_roundtrip_witness :
    '_' ∉ "mydb".data
    ∧ (inventorySourceDb (backupFilename "mydb" "20240101_000000") = "mydb"
      ∧ restoreTargetDb (backupFilename "mydb" "20240101_000000") = "mydb") :=
  ⟨by decide, C4_filename_roundtrip "mydb" "20240101_000000" (by decide)⟩

/-- C5: listing a directory holding a_backup_20240101_0000.sql (100 bytes)
and a_backup_20240102_0000.sql (2048 bytes, the newer mtime) returns them
newest-first with sizes "2.00 KB" and "100 B"; in general sizes below 1024
bytes are an integer with " B" and KB and MB sizes carry exactly two
decimal digits (thresholds at 1024 and 1024*1024). -/
theorem C5_list_backups (n m q t1 t2 : Nat) (hn : n < 1024) (hm1 : 1024 ≤ m)
    (hm2 : m < 1024 * 1024) (hq : 1024 * 1024 ≤ q) (ht : t1 < t2) :
    ListBackupsSpec n m q t1 t2 := by
  have hlt : ¬ (t2 ≤ t1) := by omega
  have he1 : isBackupFile "a_backup_20240101_0000.sql" = true := by decide
  have he2 : isBackupFile "a_backup_20240102_0000.sql" = true := by decide
  refine ⟨?_, ?_, ?_, ?_⟩
  · unfold listBackups
    have hsort :
        sortByMtimeDesc
          (List.filter (fun f => isBackupFile f.name)
            [{ name := "a_backup_20240101_0000.sql", mtime := t1, size := 100 },
             { name := "a_backup_20240102_0000.sql", mtime := t2, size := 2048 }])
        = [{ name := "a_backup_20240102_0000.sql", mtime := t2, size := 2048 },
           { name := "a_backup_20240101_0000.sql", mtime := t1, size := 100 }] := by
      simp [List.filter, he1, he2, sortByMtimeDesc, insertDesc, hlt]
    rw [hsort]
    simp only [List.map]
    refine congrArg₂ _ ?_ (congrArg₂ _ ?_ rfl) <;> decide
  · have h1 : ¬ (1024 * 1024 ≤ n) := by omega
    have h2 : ¬ (1024 ≤ n) := by omega
    simp [formatSize, h1, h2]
  · have h1 : ¬ (1024 * 1024 ≤ m) := by omega
    refine ⟨roundHalfEven (m * 25) 256 / 100, roundHalfEven (m * 25) 256 % 100, ?_, ?_⟩
    · exact Nat.mod_lt _ (by norm_num)
    · simp [formatSize, h1, hm1, twoDec]
  · refine ⟨roundHalfEven (q * 25) 262144 / 100, roundHalfEven (q * 25) 262144 % 100, ?_, ?_⟩
    · exact Nat.mod_lt _ (by norm_num)
    · simp [formatSize, hq, twoDec]

/-- Witness for C5 at sizes 100, 2048 and 2097152 and mtimes 0 < 1. -/
theorem C5_list_backups_witness :
    ((100 : Nat) < 1024 ∧ (1024 : Nat) ≤ 2048 ∧ (2048 : Nat) < 1024 * 1024
      ∧ (1024 * 1024 : Nat) ≤ 2097152 ∧ (0 : Nat) < 1)
    ∧ ListBackupsSpec 100 2048 2097152 0 1 :=
  ⟨⟨by decide, by decide, by decide, by decide, by decide⟩,
    C5_list_backups 100 2048 2097152 0 1 (by decide) (by decide) (by decide) (by decide)
      (by decide)⟩

/-- C10: can_create_database answers true exactly for the admin and
superadmin roles; for every checker it equals the is_admin flag and takes
no query outcome, so the grant relation is never consulted. -/
theorem C10_create_database_admin_only (username : String) (role : Option String) :
    ((PermissionChecker.init username role).can_create_database = true
      ↔ (normRole role = "admin" ∨ normRole role = "superadmin"))
    ∧ ∀ c : PermissionChecker, c.can_create_database = c.is_admin := by
  constructor
  · simp [PermissionChecker.init, PermissionChecker.can_create_database]
  · intro c; rfl

/-- C6: when the mysqldump process exits nonzero, the backup handler
reports the operation as failed carrying the process's stderr, never as
success, and the created (possibly empty or partial) output file is still
present in the directory afterwards. -/
theorem C6_nonzero_exit_reports_failure (files : List String) (db t : String)
    (r : ProcResult) (h : r.returncode ≠ 0) :
    (handle_backup files true db t r).1 = .failed r.stderr
    ∧ (∀ f, (handle_backup files true db t r).1 ≠ .success f)
    ∧ backupFilename db t ∈ (handle_backup files true db t r).2 := by
  refine ⟨?_, ?_, ?_⟩ <;> simp [handle_backup, h]

/-- Witness for C6 at exit code 1 with a concrete stderr text. -/
theorem C6_nonzero_exit_reports_failure_witness :
    (({ returncode := 1, stderr := "mysqldump: Got error 1049" } : ProcResult).returncode ≠ 0)
    ∧ ((handle_backup [] true "sales" "20240101_000000"
          { returncode := 1, stderr := "mysqldump: Got error 1049" }).1
        = .failed "mysqldump: Got error 1049"
      ∧ (∀ f, (handle_backup [] true "sales" "20240101_000000"
          { returncode := 1, stderr := "mysqldump: Got error 1049" }).1 ≠ .success f)
      ∧ backupFilename "sales" "20240101_000000"
          ∈ (handle_backup [] true "sales" "20240101_000000"
              { returncode := 1, stderr := "mysqldump: Got error 1049" }).2) :=
  ⟨by decide, C6_nonzero_exit_reports_failure [] "sales" "20240101_000000" _ (by decide)⟩

/-- C7 counterexample: deleting the nonexistent "ghost.sql" through
BackupsPage._handle_delete ends with no report at all (the handler's
existence check silently skips the body), not with the file-not-found
outcome the claim requires of every delete path. -/
theorem C7_counterexample_silent_skip :
    (backupsPage_handle_delete [] "ghost.sql").1 = DeleteReport.silent
    ∧ (backupsPage_handle_delete [] "ghost.sql").1
        ≠ DeleteReport.fileNotFoundWarning "ghost.sql" := by
  decide

/-- C7 (amended): for a filename absent from the directory, the
databases-page delete handler reports a File Not Found warning while the
backups-page delete handler is a silent no-op; neither path deletes a file
or reports a successful deletion. -/
theorem C7_delete_missing_behaviour (files : List String) (name : String)
    (h : name ∉ files) : DeleteMissingSpec files name := by
  refine ⟨?_, ?_, ?_, ?_, ?_, ?_⟩ <;>
    simp [DeleteMissingSpec, backupsPage_handle_delete,
      databasesPage_handle_delete_backup, h]

/-- Witness for the amended C7 at a one-file directory missing the name. -/
theorem C7_delete_missing_behaviour_witness :
    ("ghost.sql" ∉ (["a_backup_20240101_0000.sql"] : List String))
    ∧ DeleteMissingSpec ["a_backup_20240101_0000.sql"] "ghost.sql" :=
  ⟨by decide, C7_delete_missing_behaviour _ _ (by decide)⟩

end DBManager
